import Mathlib

/-!
Shallow embedding of the yars RV32 simulator core (yars-lib): the flat
little-endian memory, the integer register file, the instruction decoder
and the fetch/execute engine of `Processor`, together with theorems that
settle the spec claims about them.

Machine integers are modelled as `Nat` (unsigned 32-bit values kept below
`2 ^ 32` by explicit wrap-around) and `Int` for the two's-complement signed
views.  Rust operations that can panic (slice indexing out of range,
division by zero, signed division overflow) are modelled by `Option`
results and by an explicit `panic` outcome of execution.
-/

namespace Yars

/-- Two's-complement signed reading of a 32-bit unsigned value
(the Rust cast `as i32` applied to a `u32`). -/
def toSigned (v : Nat) : Int :=
  if v < 2 ^ 31 then (v : Int) else (v : Int) - 2 ^ 32

/-- Wrap an integer into an unsigned 32-bit value
(the Rust cast `as u32` applied to an `i32`, or two's-complement wrap). -/
def toU32 (i : Int) : Nat :=
  (i % (2 : Int) ^ 32).toNat

/-- Sign extension of the low `w` bits of `n` (with `n < 2 ^ w`), as the
Rust decoder's arithmetic-shift based sign extensions produce. -/
def signExt (w : Nat) (n : Nat) : Int :=
  if n < 2 ^ (w - 1) then (n : Int) else (n : Int) - 2 ^ w

/-- Arithmetic right shift of a signed value: floor division by `2 ^ k`,
exactly the Rust `>>` on a signed integer. -/
def sar (i : Int) (k : Nat) : Int :=
  Int.fdiv i (2 ^ k)

/-! ## Memory (yars-lib/src/memory.rs)

The memory is a boxed byte slice; here a `List Nat` of byte values.
Rust slice indexing out of range panics, modelled by `none`. -/

/-- Memory::read_byte: `self.memory[address as usize]`. -/
def readByte (m : List Nat) (a : Nat) : Option Nat :=
  m[a]?

/-- Memory::read_halfword: little-endian u16 from bytes `a, a+1`. -/
def readHalfword (m : List Nat) (a : Nat) : Option Nat :=
  match m[a]?, m[a + 1]? with
  | some b0, some b1 => some (b0 + 2 ^ 8 * b1)
  | _, _ => none

/-- Memory::read_word: little-endian u32 from bytes `a, a+1, a+2, a+3`. -/
def readWord (m : List Nat) (a : Nat) : Option Nat :=
  match m[a]?, m[a + 1]?, m[a + 2]?, m[a + 3]? with
  | some b0, some b1, some b2, some b3 =>
      some (b0 + 2 ^ 8 * b1 + 2 ^ 16 * b2 + 2 ^ 24 * b3)
  | _, _, _, _ => none

/-- Memory::write_byte: `self.memory[address as usize] = value`. -/
def writeByte (m : List Nat) (a v : Nat) : Option (List Nat) :=
  if a < m.length then some (m.set a v) else none

/-- Memory::write_halfword: store `u16::to_le_bytes value` at `a, a+1`. -/
def writeHalfword (m : List Nat) (a v : Nat) : Option (List Nat) :=
  if a + 2 ≤ m.length then
    some ((m.set a (v % 2 ^ 8)).set (a + 1) (v / 2 ^ 8 % 2 ^ 8))
  else none

/-- Memory::write_word: store `u32::to_le_bytes value` at `a .. a+3`. -/
def writeWord (m : List Nat) (a v : Nat) : Option (List Nat) :=
  if a + 4 ≤ m.length then
    some (((((m.set a (v % 2 ^ 8)).set (a + 1) (v / 2 ^ 8 % 2 ^ 8)).set
      (a + 2) (v / 2 ^ 16 % 2 ^ 8)).set (a + 3) (v / 2 ^ 24 % 2 ^ 8)))
  else none

/-! ## Register file (yars-lib/src/register.rs) -/

/-- IntRegisterSet: an array of 32 unsigned 32-bit words. -/
abbrev RegFile := List Nat

/-- IntRegisterSet::new: all registers zero. -/
def regFileNew : RegFile := List.replicate 32 0

/-- IntRegisterSet::read: `self.reg[reg]` (indices are always below 32). -/
def regRead (r : RegFile) (i : Nat) : Nat :=
  r.getD i 0

/-- IntRegisterSet::write: `if reg != 0 { self.reg[reg] = val; }`. -/
def regWrite (r : RegFile) (i : Nat) (v : Nat) : RegFile :=
  if i = 0 then r else r.set i v

/-! ## Instructions (yars-lib/src/instruction.rs) -/

/-- The instruction format classes. -/
inductive InstructionFormat
  | R | R4 | I | S | B | U | J
deriving DecidableEq

/-- The INSTRUCTION_FORMATS table, indexed by `opcode[6:2]`. -/
def instructionFormats : List (Option InstructionFormat) :=
  [some .I, some .I, none, some .I, some .I, some .U, some .I, none,
   some .S, some .S, none, some .R, some .R, some .U, some .R, none,
   some .R4, some .R4, some .R4, some .R4, some .R, none, none, none,
   some .B, some .I, none, some .J, some .I, none, none, none]

/-- InstructionFormat::from_opcode: only low bits `11` are 32-bit
instructions; the table picks the format for `opcode[6:2]`. -/
def fromOpcode (opcode : Nat) : Option InstructionFormat :=
  if opcode &&& 3 = 3 then (instructionFormats.getD ((opcode >>> 2) &&& 0x1F) none)
  else none

/-- The decoded instruction variants (register indices are 5-bit values,
immediates are the sign-extended signed values the decoder produces). -/
inductive Instruction
  | LUI (rd : Nat) (imm : Int)
  | LB (rd rs1 : Nat) (imm : Int)
  | LH (rd rs1 : Nat) (imm : Int)
  | LW (rd rs1 : Nat) (imm : Int)
  | LBU (rd rs1 : Nat) (imm : Int)
  | LHU (rd rs1 : Nat) (imm : Int)
  | SB (rs1 rs2 : Nat) (imm : Int)
  | SH (rs1 rs2 : Nat) (imm : Int)
  | SW (rs1 rs2 : Nat) (imm : Int)
  | SLLI (rd rs1 shamt : Nat)
  | SRLI (rd rs1 shamt : Nat)
  | SRAI (rd rs1 shamt : Nat)
  | SLL (rd rs1 rs2 : Nat)
  | SRL (rd rs1 rs2 : Nat)
  | SRA (rd rs1 rs2 : Nat)
  | ADDI (rd rs1 : Nat) (imm : Int)
  | ADD (rd rs1 rs2 : Nat)
  | SUB (rd rs1 rs2 : Nat)
  | ORI (rd rs1 : Nat) (imm : Int)
  | XORI (rd rs1 : Nat) (imm : Int)
  | ANDI (rd rs1 : Nat) (imm : Int)
  | OR (rd rs1 rs2 : Nat)
  | XOR (rd rs1 rs2 : Nat)
  | AND (rd rs1 rs2 : Nat)
  | SLTI (rd rs1 : Nat) (imm : Int)
  | SLTIU (rd rs1 : Nat) (imm : Int)
  | SLT (rd rs1 rs2 : Nat)
  | SLTU (rd rs1 rs2 : Nat)
  | BEQ (rs1 rs2 : Nat) (imm : Int)
  | BNE (rs1 rs2 : Nat) (imm : Int)
  | BLT (rs1 rs2 : Nat) (imm : Int)
  | BGE (rs1 rs2 : Nat) (imm : Int)
  | BLTU (rs1 rs2 : Nat) (imm : Int)
  | BGEU (rs1 rs2 : Nat) (imm : Int)
  | JAL (rd : Nat) (imm : Int)
  | AUIPC (rd : Nat) (imm : Int)
  | JALR (rd rs1 : Nat) (imm : Int)
  | FENCE (pred succ : Nat)
  | FENCETSO
  | ECALL
  | EBREAK
  | FENCEI
  | CSRRWI (rd uimm csr : Nat)
  | CSRRSI (rd uimm csr : Nat)
  | CSRRCI (rd uimm csr : Nat)
  | CSRRW (rd rs1 csr : Nat)
  | CSRRS (rd rs1 csr : Nat)
  | CSRRC (rd rs1 csr : Nat)
  | MUL (rd rs1 rs2 : Nat)
  | MULH (rd rs1 rs2 : Nat)
  | MULHSU (rd rs1 rs2 : Nat)
  | MULHU (rd rs1 rs2 : Nat)
  | DIV (rd rs1 rs2 : Nat)
  | DIVU (rd rs1 rs2 : Nat)
  | REM (rd rs1 rs2 : Nat)
  | REMU (rd rs1 rs2 : Nat)

/-- Instruction::try_from on a 32-bit word (`none` is the Err case).
`fn3op` is the source's `fn3_opcode = (funct3 << 5) | (opcode >> 2)`,
written here in decimal with the binary key in a comment. -/
def decode (inst : Nat) : Option Instruction :=
  let opcode := inst &&& 0x7F
  match fromOpcode opcode with
  | none => none
  | some InstructionFormat.R4 => none
  | some InstructionFormat.R =>
    let rd := (inst >>> 7) &&& 0x1F
    let rs1 := (inst >>> 15) &&& 0x1F
    let rs2 := (inst >>> 20) &&& 0x1F
    let funct7 := (inst >>> 25) &&& 0x7F
    let fn3op := ((inst >>> 12) &&& 7) * 32 + (opcode >>> 2)
    match fn3op, funct7 with
    | 12, 0 => some (.ADD rd rs1 rs2)    -- 0b000_01100
    | 12, 1 => some (.MUL rd rs1 rs2)
    | 12, 32 => some (.SUB rd rs1 rs2)
    | 44, 0 => some (.SLL rd rs1 rs2)    -- 0b001_01100
    | 44, 1 => some (.MULH rd rs1 rs2)
    | 76, 0 => some (.SLT rd rs1 rs2)    -- 0b010_01100
    | 76, 1 => some (.MULHSU rd rs1 rs2)
    | 108, 0 => some (.SLTU rd rs1 rs2)  -- 0b011_01100
    | 108, 1 => some (.MULHU rd rs1 rs2)
    | 140, 0 => some (.XOR rd rs1 rs2)   -- 0b100_01100
    | 140, 1 => some (.DIV rd rs1 rs2)
    | 172, 0 => some (.SRL rd rs1 rs2)   -- 0b101_01100
    | 172, 1 => some (.DIVU rd rs1 rs2)
    | 172, 32 => some (.SRA rd rs1 rs2)
    | 204, 0 => some (.OR rd rs1 rs2)    -- 0b110_01100
    | 204, 1 => some (.REM rd rs1 rs2)
    | 236, 0 => some (.AND rd rs1 rs2)   -- 0b111_01100
    | 236, 1 => some (.REMU rd rs1 rs2)
    | _, _ => none
  | some InstructionFormat.I =>
    let rd := (inst >>> 7) &&& 0x1F
    let rs1 := (inst >>> 15) &&& 0x1F
    -- imm = ((inst as i32) >> 20) as i16: sign extension of bits 31:20
    let imm : Int := signExt 12 ((inst >>> 20) &&& 0xFFF)
    -- csr = imm as u16 & 0xFFF: the raw 12 bits
    let csr := (inst >>> 20) &&& 0xFFF
    let fn3op := ((inst >>> 12) &&& 7) * 32 + (opcode >>> 2)
    match fn3op with
    | 25 => some (.JALR rd rs1 imm)      -- 0b000_11001
    | 0 => some (.LB rd rs1 imm)         -- 0b000_00000
    | 32 => some (.LH rd rs1 imm)        -- 0b001_00000
    | 64 => some (.LW rd rs1 imm)        -- 0b010_00000
    | 128 => some (.LBU rd rs1 imm)      -- 0b100_00000
    | 160 => some (.LHU rd rs1 imm)      -- 0b101_00000
    | 4 => some (.ADDI rd rs1 imm)       -- 0b000_00100
    | 68 => some (.SLTI rd rs1 imm)      -- 0b010_00100
    | 100 => some (.SLTIU rd rs1 imm)    -- 0b011_00100
    | 132 => some (.XORI rd rs1 imm)     -- 0b100_00100
    | 196 => some (.ORI rd rs1 imm)      -- 0b110_00100
    | 228 => some (.ANDI rd rs1 imm)     -- 0b111_00100
    | 3 =>                               -- 0b000_00011: FENCE family
      -- fm/pred/succ are bit fields of imm, i.e. bits 28.., 24.., 20.. of inst
      let fm := (inst >>> 28) &&& 0xF
      let fpred := (inst >>> 24) &&& 0xF
      let fsucc := (inst >>> 20) &&& 0xF
      -- FenceKind::try_from each of pred and succ first (W=1, R=2, RW=3)
      if (fpred = 1 ∨ fpred = 2 ∨ fpred = 3) ∧ (fsucc = 1 ∨ fsucc = 2 ∨ fsucc = 3) then
        if fm = 8 ∧ fpred = 3 ∧ fsucc = 3 then some .FENCETSO
        else if fm = 0 then some (.FENCE fpred fsucc)
        else none
      else none
    | 28 =>                              -- 0b000_11100: ECALL/EBREAK on imm
      if imm = 0 then some .ECALL
      else if imm = 1 then some .EBREAK
      else none
    | 35 => some .FENCEI                 -- 0b001_00011
    | 60 => some (.CSRRW rd rs1 csr)     -- 0b001_11100
    | 92 => some (.CSRRS rd rs1 csr)     -- 0b010_11100
    | 124 => some (.CSRRC rd rs1 csr)    -- 0b011_11100
    | 188 => some (.CSRRWI rd rs1 csr)   -- 0b101_11100, uimm := rs1
    | 220 => some (.CSRRSI rd rs1 csr)   -- 0b110_11100
    | 252 => some (.CSRRCI rd rs1 csr)   -- 0b111_11100
    | _ => none
  | some InstructionFormat.S =>
    let rs1 := (inst >>> 15) &&& 0x1F
    let rs2 := (inst >>> 20) &&& 0x1F
    -- imm = (imm115 << 5) | imm40, sign-extended from bit 11
    let imm : Int := signExt 12 (((inst >>> 25) &&& 0x7F) * 32 + ((inst >>> 7) &&& 0x1F))
    let fn3op := ((inst >>> 12) &&& 7) * 32 + (opcode >>> 2)
    match fn3op with
    | 8 => some (.SB rs1 rs2 imm)        -- 0b000_01000
    | 40 => some (.SH rs1 rs2 imm)       -- 0b001_01000
    | 72 => some (.SW rs1 rs2 imm)       -- 0b010_01000
    | _ => none
  | some InstructionFormat.B =>
    let rs1 := (inst >>> 15) &&& 0x1F
    let rs2 := (inst >>> 20) &&& 0x1F
    -- imm = (imm12<<12)|(imm11<<11)|(imm105<<5)|(imm41<<1), sign-ext from bit 12
    let imm : Int := signExt 13 (((inst >>> 31) &&& 1) * 2 ^ 12 +
      ((inst >>> 7) &&& 1) * 2 ^ 11 + ((inst >>> 25) &&& 0x3F) * 2 ^ 5 +
      ((inst >>> 8) &&& 0xF) * 2)
    let fn3op := ((inst >>> 12) &&& 7) * 32 + (opcode >>> 2)
    match fn3op with
    | 24 => some (.BEQ rs1 rs2 imm)      -- 0b000_11000
    | 56 => some (.BNE rs1 rs2 imm)      -- 0b001_11000
    | 152 => some (.BLT rs1 rs2 imm)     -- 0b100_11000
    | 184 => some (.BGE rs1 rs2 imm)     -- 0b101_11000
    | 216 => some (.BLTU rs1 rs2 imm)    -- 0b110_11000
    | 248 => some (.BGEU rs1 rs2 imm)    -- 0b111_11000
    | _ => none
  | some InstructionFormat.U =>
    let rd := (inst >>> 7) &&& 0x1F
    -- imm = (inst & !0xFFF) as i32: bits 31:12 kept in place, as signed
    let imm : Int := toSigned (inst &&& 0xFFFFF000)
    match opcode >>> 2 with
    | 13 => some (.LUI rd imm)           -- 0b01101
    | 5 => some (.AUIPC rd imm)          -- 0b00101
    | _ => none
  | some InstructionFormat.J =>
    let rd := (inst >>> 7) &&& 0x1F
    -- imm = (imm20<<20)|(imm1912<<12)|(imm11<<11)|(imm101<<1), sign-ext from bit 20
    let imm : Int := signExt 21 (((inst >>> 31) &&& 1) * 2 ^ 20 +
      ((inst >>> 12) &&& 0xFF) * 2 ^ 12 + ((inst >>> 20) &&& 1) * 2 ^ 11 +
      ((inst >>> 21) &&& 0x3FF) * 2)
    match opcode >>> 2 with
    | 27 => some (.JAL rd imm)           -- 0b11011
    | _ => none

/-! ## Processor (yars-lib/src/processor.rs) -/

/-- ProcessorError. -/
inductive ProcessorError
  | Ebreak
  | Ecall
  | IllegalAccess
  | IllegalFetch
  | InvalidOpcode
  | MisalignedFetch
deriving DecidableEq

/-- Processor state: program counter, cycle counter, memory bytes,
register file. -/
structure Processor where
  pc : Nat
  cycles : Nat
  memory : List Nat
  registers : RegFile
deriving DecidableEq

/-- Result of Processor::fetch.  `panic` is the out-of-range slice access
inside Memory::read_word. -/
inductive FetchResult
  | ok (i : Instruction)
  | err (e : ProcessorError)
  | panic

/-- Processor::fetch: guard `pc >= size`, then alignment, then read the
word at `pc` and decode it (decoder failure is InvalidOpcode). -/
def fetch (p : Processor) : FetchResult :=
  if p.memory.length ≤ p.pc then .err .IllegalFetch
  else if p.pc % 4 ≠ 0 then .err .MisalignedFetch
  else
    match readWord p.memory p.pc with
    | none => .panic
    | some w =>
      match decode w with
      | none => .err .InvalidOpcode
      | some i => .ok i

/-- Processor::fetch takes `&self`: the borrowed processor is returned
unchanged alongside the result. -/
def fetchStep (p : Processor) : FetchResult × Processor :=
  (fetch p, p)

/-- Result of Processor::execute.  `err` carries the (possibly updated)
processor because the Ecall/Ebreak arms bump the cycle counter before
returning the error while the IllegalAccess paths return early; `panic`
models a Rust panic (slice out of range, division by zero or signed
division overflow, and the constructors the source match has no arm for). -/
inductive ExecResult
  | ok (p : Processor)
  | err (e : ProcessorError) (p : Processor)
  | panic
deriving DecidableEq

/-- Processor::execute, arm by arm from the source.  Notes on casts:
the loads compute `read as i32 as u32` from an unsigned byte/halfword,
which is zero extension; SRAI shifts the unsigned `u32` register value
(a logical shift, unlike SRA which casts to `i32` first); DIV/DIVU/REM/REMU
use the plain Rust operators, which panic on a zero divisor and, for the
signed ones, on `INT32_MIN / -1`.  Shift amounts in the decoded
instructions are 5-bit fields, so the shift-overflow panic of Rust
shifts is not modelled. -/
def execute (p : Processor) (inst : Instruction) : ExecResult :=
  match inst with
  | .LUI rd imm =>
    .ok { p with registers := regWrite p.registers rd ((toU32 imm <<< 12) % 2 ^ 32),
                 cycles := p.cycles + 1 }
  | .LB rd rs1 imm =>
    let addr := (regRead p.registers rs1 + toU32 imm) % 2 ^ 32
    if p.memory.length ≤ addr then .err .IllegalAccess p
    else
      match readByte p.memory addr with
      | none => .panic
      | some b =>
        .ok { p with registers := regWrite p.registers rd b, cycles := p.cycles + 1 }
  | .LH rd rs1 imm =>
    let addr := (regRead p.registers rs1 + toU32 imm) % 2 ^ 32
    if p.memory.length ≤ addr then .err .IllegalAccess p
    else
      match readHalfword p.memory addr with
      | none => .panic
      | some h =>
        .ok { p with registers := regWrite p.registers rd h, cycles := p.cycles + 1 }
  | .LW rd rs1 imm =>
    let addr := (regRead p.registers rs1 + toU32 imm) % 2 ^ 32
    if p.memory.length ≤ addr then .err .IllegalAccess p
    else
      match readWord p.memory addr with
      | none => .panic
      | some w =>
        .ok { p with registers := regWrite p.registers rd w, cycles := p.cycles + 1 }
  | .LBU rd rs1 imm =>
    let addr := (regRead p.registers rs1 + toU32 imm) % 2 ^ 32
    if p.memory.length ≤ addr then .err .IllegalAccess p
    else
      match readByte p.memory addr with
      | none => .panic
      | some b =>
        .ok { p with registers := regWrite p.registers rd b, cycles := p.cycles + 1 }
  | .LHU rd rs1 imm =>
    let addr := (regRead p.registers rs1 + toU32 imm) % 2 ^ 32
    if p.memory.length ≤ addr then .err .IllegalAccess p
    else
      match readHalfword p.memory addr with
      | none => .panic
      | some h =>
        .ok { p with registers := regWrite p.registers rd h, cycles := p.cycles + 1 }
  | .SB rs1 rs2 imm =>
    let addr := (regRead p.registers rs1 + toU32 imm) % 2 ^ 32
    if p.memory.length ≤ addr then .err .IllegalAccess p
    else
      match writeByte p.memory addr (regRead p.registers rs2 % 2 ^ 8) with
      | none => .panic
      | some m => .ok { p with memory := m, cycles := p.cycles + 1 }
  | .SH rs1 rs2 imm =>
    let addr := (regRead p.registers rs1 + toU32 imm) % 2 ^ 32
    if p.memory.length ≤ addr then .err .IllegalAccess p
    else
      match writeHalfword p.memory addr (regRead p.registers rs2 % 2 ^ 16) with
      | none => .panic
      | some m => .ok { p with memory := m, cycles := p.cycles + 1 }
  | .SW rs1 rs2 imm =>
    let addr := (regRead p.registers rs1 + toU32 imm) % 2 ^ 32
    if p.memory.length ≤ addr then .err .IllegalAccess p
    else
      match writeWord p.memory addr (regRead p.registers rs2) with
      | none => .panic
      | some m => .ok { p with memory := m, cycles := p.cycles + 1 }
  | .SLLI rd rs1 shamt =>
    let v1 := regRead p.registers rs1
    .ok { p with registers := regWrite p.registers rd ((v1 <<< shamt) % 2 ^ 32),
                 cycles := p.cycles + 1 }
  | .SRLI rd rs1 shamt =>
    let v1 := regRead p.registers rs1
    .ok { p with registers := regWrite p.registers rd (v1 >>> shamt),
                 cycles := p.cycles + 1 }
  | .SRAI rd rs1 shamt =>
    -- source: `(v1 >> shamt) as u32` with `v1 : u32`: a logical shift
    let v1 := regRead p.registers rs1
    .ok { p with registers := regWrite p.registers rd (v1 >>> shamt),
                 cycles := p.cycles + 1 }
  | .SLL rd rs1 rs2 =>
    let v1 := regRead p.registers rs1
    let v2 := regRead p.registers rs2
    .ok { p with registers := regWrite p.registers rd ((v1 <<< v2) % 2 ^ 32),
                 cycles := p.cycles + 1 }
  | .SRL rd rs1 rs2 =>
    let v1 := regRead p.registers rs1
    let v2 := regRead p.registers rs2
    .ok { p with registers := regWrite p.registers rd (v1 >>> v2),
                 cycles := p.cycles + 1 }
  | .SRA rd rs1 rs2 =>
    let v1 := regRead p.registers rs1
    let v2 := regRead p.registers rs2
    .ok { p with registers := regWrite p.registers rd (toU32 (sar (toSigned v1) v2)),
                 cycles := p.cycles + 1 }
  | .ADDI rd rs1 imm =>
    let v1 := regRead p.registers rs1
    .ok { p with registers := regWrite p.registers rd (toU32 (toSigned v1 + imm)),
                 cycles := p.cycles + 1 }
  | .ADD rd rs1 rs2 =>
    let v1 := regRead p.registers rs1
    let v2 := regRead p.registers rs2
    .ok { p with registers := regWrite p.registers rd (toU32 (toSigned v1 + toSigned v2)),
                 cycles := p.cycles + 1 }
  | .SUB rd rs1 rs2 =>
    let v1 := regRead p.registers rs1
    let v2 := regRead p.registers rs2
    .ok { p with registers := regWrite p.registers rd (toU32 (toSigned v1 - toSigned v2)),
                 cycles := p.cycles + 1 }
  | .ORI rd rs1 imm =>
    let v1 := regRead p.registers rs1
    .ok { p with registers := regWrite p.registers rd (v1 ||| toU32 imm),
                 cycles := p.cycles + 1 }
  | .XORI rd rs1 imm =>
    let v1 := regRead p.registers rs1
    .ok { p with registers := regWrite p.registers rd (v1 ^^^ toU32 imm),
                 cycles := p.cycles + 1 }
  | .ANDI rd rs1 imm =>
    let v1 := regRead p.registers rs1
    .ok { p with registers := regWrite p.registers rd (v1 &&& toU32 imm),
                 cycles := p.cycles + 1 }
  | .OR rd rs1 rs2 =>
    let v1 := regRead p.registers rs1
    let v2 := regRead p.registers rs2
    .ok { p with registers := regWrite p.registers rd (v1 ||| v2),
                 cycles := p.cycles + 1 }
  | .XOR rd rs1 rs2 =>
    let v1 := regRead p.registers rs1
    let v2 := regRead p.registers rs2
    .ok { p with registers := regWrite p.registers rd (v1 ^^^ v2),
                 cycles := p.cycles + 1 }
  | .AND rd rs1 rs2 =>
    let v1 := regRead p.registers rs1
    let v2 := regRead p.registers rs2
    .ok { p with registers := regWrite p.registers rd (v1 &&& v2),
                 cycles := p.cycles + 1 }
  | .SLTI rd rs1 imm =>
    let v1 := regRead p.registers rs1
    .ok { p with registers := regWrite p.registers rd (if toSigned v1 < imm then 1 else 0),
                 cycles := p.cycles + 1 }
  | .SLTIU rd rs1 imm =>
    let v1 := regRead p.registers rs1
    .ok { p with registers := regWrite p.registers rd (if v1 < toU32 imm then 1 else 0),
                 cycles := p.cycles + 1 }
  | .SLT rd rs1 rs2 =>
    let v1 := regRead p.registers rs1
    let v2 := regRead p.registers rs2
    .ok { p with registers := regWrite p.registers rd
                   (if toSigned v1 < toSigned v2 then 1 else 0),
                 cycles := p.cycles + 1 }
  | .SLTU rd rs1 rs2 =>
    let v1 := regRead p.registers rs1
    let v2 := regRead p.registers rs2
    .ok { p with registers := regWrite p.registers rd (if v1 < v2 then 1 else 0),
                 cycles := p.cycles + 1 }
  | .BEQ rs1 rs2 imm =>
    let v1 := regRead p.registers rs1
    let v2 := regRead p.registers rs2
    let v3 := toU32 imm
    .ok { p with pc := if v1 = v2 then (p.pc + v3) % 2 ^ 32 else p.pc,
                 cycles := p.cycles + 1 }
  | .BNE rs1 rs2 imm =>
    let v1 := regRead p.registers rs1
    let v2 := regRead p.registers rs2
    let v3 := toU32 imm
    .ok { p with pc := if v1 ≠ v2 then (p.pc + v3) % 2 ^ 32 else p.pc,
                 cycles := p.cycles + 1 }
  | .BLT rs1 rs2 imm =>
    -- source: `if v1 > v2` on the signed views
    let v1 := toSigned (regRead p.registers rs1)
    let v2 := toSigned (regRead p.registers rs2)
    let v3 := toU32 imm
    .ok { p with pc := if v1 > v2 then (p.pc + v3) % 2 ^ 32 else p.pc,
                 cycles := p.cycles + 1 }
  | .BGE rs1 rs2 imm =>
    -- source: `if v1 <= v2` on the signed views
    let v1 := toSigned (regRead p.registers rs1)
    let v2 := toSigned (regRead p.registers rs2)
    let v3 := toU32 imm
    .ok { p with pc := if v1 ≤ v2 then (p.pc + v3) % 2 ^ 32 else p.pc,
                 cycles := p.cycles + 1 }
  | .BLTU rs1 rs2 imm =>
    -- source: `if v1 > v2` on the unsigned values
    let v1 := regRead p.registers rs1
    let v2 := regRead p.registers rs2
    let v3 := toU32 imm
    .ok { p with pc := if v1 > v2 then (p.pc + v3) % 2 ^ 32 else p.pc,
                 cycles := p.cycles + 1 }
  | .BGEU rs1 rs2 imm =>
    -- source: `if v1 <= v2` on the unsigned values
    let v1 := regRead p.registers rs1
    let v2 := regRead p.registers rs2
    let v3 := toU32 imm
    .ok { p with pc := if v1 ≤ v2 then (p.pc + v3) % 2 ^ 32 else p.pc,
                 cycles := p.cycles + 1 }
  | .JAL rd imm =>
    let val := (p.pc + toU32 imm) % 2 ^ 32
    .ok { p with registers := regWrite p.registers rd ((p.pc + 4) % 2 ^ 32),
                 pc := val, cycles := p.cycles + 1 }
  | .AUIPC rd imm =>
    let val := (p.pc + (toU32 imm <<< 12) % 2 ^ 32) % 2 ^ 32
    .ok { p with registers := regWrite p.registers rd val, cycles := p.cycles + 1 }
  | .JALR rd rs1 imm =>
    let v1 := regRead p.registers rs1
    let val := ((v1 + toU32 imm) % 2 ^ 32) &&& 0xFFFFFFFE
    .ok { p with registers := regWrite p.registers rd ((p.pc + 4) % 2 ^ 32),
                 pc := val, cycles := p.cycles + 1 }
  | .FENCE _ _ => .ok { p with cycles := p.cycles + 1 }
  | .FENCETSO => .ok { p with cycles := p.cycles + 1 }
  | .ECALL => .err .Ecall { p with cycles := p.cycles + 1 }
  | .EBREAK => .err .Ebreak { p with cycles := p.cycles + 1 }
  | .MUL rd rs1 rs2 =>
    let v1 := toSigned (regRead p.registers rs1)
    let v2 := toSigned (regRead p.registers rs2)
    .ok { p with registers := regWrite p.registers rd (toU32 (v1 * v2)),
                 cycles := p.cycles + 1 }
  | .MULH rd rs1 rs2 =>
    let v1 := toSigned (regRead p.registers rs1)
    let v2 := toSigned (regRead p.registers rs2)
    .ok { p with registers := regWrite p.registers rd
                   ((((v1 * v2) % 2 ^ 64).toNat >>> 32) % 2 ^ 32),
                 cycles := p.cycles + 1 }
  | .MULHSU rd rs1 rs2 =>
    let v1 := toSigned (regRead p.registers rs1)
    let v2 : Int := (regRead p.registers rs2 : Int)
    .ok { p with registers := regWrite p.registers rd
                   ((((v1 * v2) % 2 ^ 64).toNat >>> 32) % 2 ^ 32),
                 cycles := p.cycles + 1 }
  | .MULHU rd rs1 rs2 =>
    let v1 := regRead p.registers rs1
    let v2 := regRead p.registers rs2
    .ok { p with registers := regWrite p.registers rd
                   (((v1 * v2 % 2 ^ 64) >>> 32) % 2 ^ 32),
                 cycles := p.cycles + 1 }
  | .DIV rd rs1 rs2 =>
    -- source: `v1 / v2` on i32, which panics on v2 = 0 and on MIN / -1
    let v1 := toSigned (regRead p.registers rs1)
    let v2 := toSigned (regRead p.registers rs2)
    if v2 = 0 then .panic
    else if v1 = -(2 ^ 31) ∧ v2 = -1 then .panic
    else
      .ok { p with registers := regWrite p.registers rd (toU32 (Int.tdiv v1 v2)),
                   cycles := p.cycles + 1 }
  | .DIVU rd rs1 rs2 =>
    -- source: `v1 / v2` on u32, which panics on v2 = 0
    let v1 := regRead p.registers rs1
    let v2 := regRead p.registers rs2
    if v2 = 0 then .panic
    else
      .ok { p with registers := regWrite p.registers rd (v1 / v2),
                   cycles := p.cycles + 1 }
  | .REM rd rs1 rs2 =>
    -- source: `v1 % v2` on i32, which panics on v2 = 0 and on MIN % -1
    let v1 := toSigned (regRead p.registers rs1)
    let v2 := toSigned (regRead p.registers rs2)
    if v2 = 0 then .panic
    else if v1 = -(2 ^ 31) ∧ v2 = -1 then .panic
    else
      .ok { p with registers := regWrite p.registers rd (toU32 (Int.tmod v1 v2)),
                   cycles := p.cycles + 1 }
  | .REMU rd rs1 rs2 =>
    -- source: `v1 % v2` on u32, which panics on v2 = 0
    let v1 := regRead p.registers rs1
    let v2 := regRead p.registers rs2
    if v2 = 0 then .panic
    else
      .ok { p with registers := regWrite p.registers rd (v1 % v2),
                   cycles := p.cycles + 1 }
  -- the source match in Processor::execute has no arm for the remaining
  -- decoded-only constructors (FENCEI and the six CSR forms)
  | .FENCEI => .panic
  | .CSRRWI _ _ _ => .panic
  | .CSRRSI _ _ _ => .panic
  | .CSRRCI _ _ _ => .panic
  | .CSRRW _ _ _ => .panic
  | .CSRRS _ _ _ => .panic
  | .CSRRC _ _ _ => .panic

/-! ## Statement helpers and concrete machine states -/

/-- A 16-byte zeroed memory, large enough for word accesses in examples. -/
def mem16 : List Nat := List.replicate 16 0

/-- Machine for the branch-predicate claim: pc 8, x1 = 0xFFFFFFFF (signed -1),
x2 = 1. -/
def c1proc : Processor :=
  { pc := 8, cycles := 0, memory := mem16,
    registers := regWrite (regWrite regFileNew 1 0xFFFFFFFF) 2 1 }

/-- Fresh machine at pc 0 for the LUI evaluation. -/
def c2proc : Processor :=
  { pc := 0, cycles := 0, memory := mem16, registers := regFileNew }

/-- Machine at pc 4 for the AUIPC evaluation. -/
def c2bproc : Processor :=
  { pc := 4, cycles := 0, memory := mem16, registers := regFileNew }

/-- Machine with x1 = 0x80000000 (bit 31 set) for the SRAI evaluation. -/
def c3proc : Processor :=
  { pc := 0, cycles := 0, memory := mem16,
    registers := regWrite regFileNew 1 0x80000000 }

/-- Machine with x1 = 42 and x2 = 0 for the divide-by-zero evaluation. -/
def c4proc : Processor :=
  { pc := 0, cycles := 0, memory := mem16,
    registers := regWrite (regWrite regFileNew 1 42) 2 0 }

/-- Machine with x1 = INT32_MIN and x2 = -1 (as u32) for signed overflow. -/
def c4bproc : Processor :=
  { pc := 0, cycles := 0, memory := mem16,
    registers := regWrite (regWrite regFileNew 1 0x80000000) 2 0xFFFFFFFF }

/-- Machine with a 4-byte memory for the access-width bounds evaluation. -/
def c5proc : Processor :=
  { pc := 0, cycles := 0, memory := List.replicate 4 0, registers := regFileNew }

/-- C1: the spec says a conditional branch is taken exactly when its
predicate holds on the pre-execute register values (BLT: signed rs1 < rs2,
BGEU: unsigned rs1 >= rs2, ...), and that otherwise the PC is unchanged.
The code inverts the BLT/BGE/BLTU/BGEU comparisons: with x1 = -1 (signed)
and x2 = 1, the BLT predicate -1 < 1 holds yet execute leaves the PC at 8,
and with unsigned operands 1 < 0xFFFFFFFF the BGEU predicate fails yet
execute moves the PC to 16. -/
theorem c1_branch_predicates_inverted :
    toSigned (regRead c1proc.registers 1) < toSigned (regRead c1proc.registers 2) ∧
    execute c1proc (Instruction.BLT 1 2 8) = ExecResult.ok { c1proc with cycles := 1 } ∧
    c1proc.pc = 8 ∧
    regRead c1proc.registers 2 < regRead c1proc.registers 1 ∧
    execute c1proc (Instruction.BGEU 2 1 8) =
      ExecResult.ok { c1proc with pc := 16, cycles := 1 } := by
  refine ⟨by decide, by decide, by decide, by decide, by decide⟩

/-- C2: the spec says decoding then executing a U-type instruction applies
exactly one left shift by 12, so `lui x5, 0x12345` (0x123452B7) stores
0x12345000 and `auipc x6, 0x00001` (0x00001317) at PC 4 stores 0x00001004.
The decoder already returns the immediate with its low 12 bits cleared in
place (0x12345000) and the execute arm shifts it by 12 again, so the code
stores 0x45000000 and 0x01000004 instead. -/
theorem c2_u_type_double_shift :
    decode 0x123452B7 = some (Instruction.LUI 5 0x12345000) ∧
    execute c2proc (Instruction.LUI 5 0x12345000) =
      ExecResult.ok { c2proc with registers := regWrite c2proc.registers 5 0x45000000,
                                  cycles := 1 } ∧
    (0x45000000 : Nat) ≠ 0x12345000 ∧
    decode 0x00001317 = some (Instruction.AUIPC 6 0x1000) ∧
    execute c2bproc (Instruction.AUIPC 6 0x1000) =
      ExecResult.ok { c2bproc with registers := regWrite c2bproc.registers 6 0x01000004,
                                   cycles := 1 } ∧
    (0x01000004 : Nat) ≠ 0x00001004 := by
  refine ⟨rfl, by decide, by decide, rfl, by decide, by decide⟩

/-- C3: the spec says SRAI is an arithmetic (sign-propagating) right shift,
so x1 = 0x80000000 shifted right by 4 must give 0xF8000000 (high 4 bits
ones).  The SRAI arm shifts the unsigned register value without the `i32`
cast that SRA performs, a logical shift, and stores 0x08000000. -/
theorem c3_srai_is_logical_shift :
    execute c3proc (Instruction.SRAI 2 1 4) =
      ExecResult.ok { c3proc with registers := regWrite c3proc.registers 2 0x08000000,
                                  cycles := 1 } ∧
    toU32 (sar (toSigned 0x80000000) 4) = 0xF8000000 ∧
    (0x08000000 : Nat) ≠ 0xF8000000 := by
  refine ⟨by decide, by decide, by decide⟩

/-- C4: the spec requires the RISC-V division-by-zero results
(DIVU -> 0xFFFFFFFF, DIV -> -1, REMU -> rs1, REM -> rs1) and the signed
overflow results (DIV -> INT32_MIN, REM -> 0).  The code uses the plain
Rust `/` and `%` operators, which panic on a zero divisor and on
INT32_MIN / -1, so none of these executions writes the required value. -/
theorem c4_division_edge_cases_panic :
    regRead c4proc.registers 2 = 0 ∧
    execute c4proc (Instruction.DIVU 3 1 2) = ExecResult.panic ∧
    execute c4proc (Instruction.DIV 3 1 2) = ExecResult.panic ∧
    execute c4proc (Instruction.REM 3 1 2) = ExecResult.panic ∧
    execute c4proc (Instruction.REMU 3 1 2) = ExecResult.panic ∧
    toSigned (regRead c4bproc.registers 1) = -(2 ^ 31) ∧
    toSigned (regRead c4bproc.registers 2) = -1 ∧
    execute c4bproc (Instruction.DIV 3 1 2) = ExecResult.panic ∧
    execute c4bproc (Instruction.REM 3 1 2) = ExecResult.panic := by
  refine ⟨by decide, by decide, by decide, by decide, by decide, by decide, by decide,
    by decide, by decide⟩

/-- C5: the spec says a load/store of width w raises IllegalAccess exactly
when addr + w exceeds the memory size, and in particular a word access at
addr = N - 1 returns IllegalAccess.  The code checks only `addr >= N`: with
N = 4, a word load at addr 3 passes the check and panics inside
Memory::read_word (slice out of range) instead of returning IllegalAccess;
the same happens for a halfword load and a word store at addr 3.  Only
addr >= 4 produces IllegalAccess. -/
theorem c5_bounds_check_ignores_width :
    c5proc.memory.length = 4 ∧
    execute c5proc (Instruction.LW 1 0 3) = ExecResult.panic ∧
    execute c5proc (Instruction.LH 1 0 3) = ExecResult.panic ∧
    execute c5proc (Instruction.SW 0 2 3) = ExecResult.panic ∧
    execute c5proc (Instruction.LW 1 0 4) =
      ExecResult.err ProcessorError.IllegalAccess c5proc := by
  refine ⟨by decide, by decide, by decide, by decide, by decide⟩

/-- Cycle-counter contract of one execute invocation: the counter grows by
one on success and on the Ecall/Ebreak error returns, and is unchanged on
the IllegalAccess early returns (a panic leaves no observable state). -/
def cyclesSpec (r : ExecResult) (c : Nat) : Prop :=
  match r with
  | .ok q => q.cycles = c + 1
  | .err ProcessorError.IllegalAccess q => q.cycles = c
  | .err _ q => q.cycles = c + 1
  | .panic => True

/-- Machine with a 4-byte memory used to refute the unconditional
cycle-increment claim. -/
def c6proc : Processor :=
  { pc := 0, cycles := 0, memory := List.replicate 4 0, registers := regFileNew }

/-- C6 counterexample: a load whose effective address 100 is out of the
4-byte memory returns IllegalAccess with the processor unchanged, so the
cycle counter stays at 0 instead of becoming 1: the claim that every
invocation increments it fails on this input. -/
theorem c6_illegal_access_keeps_cycles :
    execute c6proc (Instruction.LW 1 0 100) =
      ExecResult.err ProcessorError.IllegalAccess c6proc ∧
    c6proc.cycles = 0 ∧ c6proc.cycles ≠ c6proc.cycles + 1 := by
  refine ⟨by decide, by decide, by decide⟩

/-- C6 amended: execute increments the cycle counter by exactly 1 on every
invocation that returns success or Ecall/Ebreak; an invocation that returns
IllegalAccess leaves the counter unchanged (its early-return paths skip the
increment). -/
theorem c6_cycles_increment (p : Processor) (i : Instruction) :
    cyclesSpec (execute p i) p.cycles := by
  cases i <;> simp only [execute] <;> (repeat' split) <;> simp [cyclesSpec]

/-- State preservation on the IllegalAccess result: the returned processor
is the pre-call one. -/
def illegalAccessKeepsState (r : ExecResult) (p : Processor) : Prop :=
  match r with
  | .err ProcessorError.IllegalAccess q => q = p
  | _ => True

/-- C10: whenever execute returns IllegalAccess, the whole processor state
(PC, registers, memory, and the cycle counter, which is not incremented on
this path) is exactly the pre-call state: every IllegalAccess return in the
source happens before any mutation. -/
theorem c10_illegal_access_preserves_state (p : Processor) (i : Instruction) :
    illegalAccessKeepsState (execute p i) p := by
  cases i <;> simp only [execute] <;> (repeat' split) <;> simp [illegalAccessKeepsState]

/-- A successful 4-byte read implies the whole window is inside memory. -/
theorem readWord_some_bound {m : List Nat} {a w : Nat}
    (h : readWord m a = some w) : a + 4 ≤ m.length := by
  unfold readWord at h
  by_contra hlt
  rw [List.getElem?_eq_none (by omega : m.length ≤ a + 3)] at h
  split at h <;> simp_all

/-- Processor used to exercise the IllegalFetch guard (pc at the size). -/
def c7illproc : Processor :=
  { pc := 16, cycles := 0, memory := mem16, registers := regFileNew }

/-- Processor used to exercise the MisalignedFetch guard (pc = 2). -/
def c7misproc : Processor :=
  { pc := 2, cycles := 0, memory := mem16, registers := regFileNew }

/-- Processor whose memory holds `addi x1, x0, 5` (0x00500093) at pc 0. -/
def c7okproc : Processor :=
  { pc := 0, cycles := 0, memory := [0x93, 0x00, 0x50, 0x00],
    registers := regFileNew }

/-- C7: fetch returns IllegalFetch when PC is at or past the memory size,
MisalignedFetch when PC is inside memory but not word-aligned, succeeds
only when PC is aligned and the whole 4-byte window is inside memory, and,
taking the processor by shared reference, modifies no state. -/
theorem c7_fetch_guards (p : Processor) :
    (p.memory.length ≤ p.pc → fetch p = FetchResult.err ProcessorError.IllegalFetch) ∧
    (p.pc < p.memory.length → p.pc % 4 ≠ 0 →
      fetch p = FetchResult.err ProcessorError.MisalignedFetch) ∧
    (∀ i, fetch p = FetchResult.ok i →
      p.pc % 4 = 0 ∧ p.pc + 4 ≤ p.memory.length) ∧
    (fetchStep p).2 = p := by
  refine ⟨?_, ?_, ?_, rfl⟩
  · intro h; unfold fetch; rw [if_pos h]
  · intro h1 h2; unfold fetch; rw [if_neg (by omega), if_pos h2]
  · intro i h
    unfold fetch at h
    by_cases hlen : p.memory.length ≤ p.pc
    · rw [if_pos hlen] at h; exact absurd h (by simp)
    · rw [if_neg hlen] at h
      by_cases halign : p.pc % 4 ≠ 0
      · rw [if_pos halign] at h; exact absurd h (by simp)
      · rw [if_neg halign] at h
        push_neg at halign
        refine ⟨halign, ?_⟩
        cases hw : readWord p.memory p.pc with
        | none => rw [hw] at h; exact absurd h (by simp)
        | some w => exact readWord_some_bound hw

/-- C7 witness: the three guards and the no-modification clause at concrete
processors (pc 16 on a 16-byte memory, pc 2, and pc 0 over an `addi`
encoding). -/
theorem c7_fetch_guards_witness :
    fetch c7illproc = FetchResult.err ProcessorError.IllegalFetch ∧
    fetch c7misproc = FetchResult.err ProcessorError.MisalignedFetch ∧
    (c7okproc.pc % 4 = 0 ∧ c7okproc.pc + 4 ≤ c7okproc.memory.length) ∧
    (fetchStep c7okproc).2 = c7okproc :=
  ⟨(c7_fetch_guards c7illproc).1 (by decide),
   (c7_fetch_guards c7misproc).2.1 (by decide) (by decide),
   (c7_fetch_guards c7okproc).2.2.1 (Instruction.ADDI 1 0 5) rfl,
   (c7_fetch_guards c7okproc).2.2.2⟩

/-- Replay a list of (index, value) writes on a register file. -/
def applyWrites (r : RegFile) (ws : List (Nat × Nat)) : RegFile :=
  ws.foldl (fun s w => regWrite s w.1 w.2) r

/-- A single write never changes what index 0 reads. -/
theorem regRead_zero_regWrite (r : RegFile) (i v : Nat) :
    regRead (regWrite r i v) 0 = regRead r 0 := by
  unfold regWrite
  split
  · rfl
  · next h =>
    unfold regRead
    simp [List.getElem?_set_ne (by omega : i ≠ 0)]

/-- Reading index 0 stays 0 across any sequence of writes. -/
theorem applyWrites_read_zero (ws : List (Nat × Nat)) :
    ∀ r : RegFile, regRead r 0 = 0 → regRead (applyWrites r ws) 0 = 0 := by
  induction ws with
  | nil => intro r h; exact h
  | cons w ws ih =>
    intro r h
    unfold applyWrites at ih ⊢
    simp only [List.foldl_cons]
    exact ih _ (by rw [regRead_zero_regWrite]; exact h)

/-- C8: register 0 is hardwired to zero: starting from the fresh register
file, any sequence of writes (writes to index 0 with any value included)
leaves read(0) at 0, and a write addressed to index 0 leaves every register
of any register file unchanged. -/
theorem c8_zero_register_hardwired :
    (∀ ws : List (Nat × Nat), regRead (applyWrites regFileNew ws) 0 = 0) ∧
    (∀ (r : RegFile) (v : Nat), regWrite r 0 v = r) := by
  constructor
  · intro ws; exact applyWrites_read_zero ws regFileNew (by decide)
  · intro r v; unfold regWrite; rw [if_pos rfl]

/-- Write a byte then read it back at the same address. -/
def byteRoundTrip (m : List Nat) (a v : Nat) : Option Nat :=
  (writeByte m a v).bind (fun m2 => readByte m2 a)

/-- Write a halfword then read it back at the same address. -/
def halfRoundTrip (m : List Nat) (a v : Nat) : Option Nat :=
  (writeHalfword m a v).bind (fun m2 => readHalfword m2 a)

/-- Write a word then read it back at the same address. -/
def wordRoundTrip (m : List Nat) (a v : Nat) : Option Nat :=
  (writeWord m a v).bind (fun m2 => readWord m2 a)

/-- Write a word at `a` then read the single byte at `k`. -/
def wordWriteThenByte (m : List Nat) (a v k : Nat) : Option Nat :=
  (writeWord m a v).bind (fun m2 => readByte m2 k)

/-- Reading back each position of a two-byte store chain. -/
theorem set2_reads (m : List Nat) (a b0 b1 : Nat) (ha : a + 2 ≤ m.length) :
    ((m.set a b0).set (a + 1) b1)[a]? = some b0 ∧
    ((m.set a b0).set (a + 1) b1)[a + 1]? = some b1 := by
  constructor
  · rw [List.getElem?_set_ne (by omega : a + 1 ≠ a),
      List.getElem?_set_self (by omega : a < m.length)]
  · rw [List.getElem?_set_self
      (by simp only [List.length_set]; omega : a + 1 < (m.set a b0).length)]

/-- Reading back each position of a four-byte store chain. -/
theorem set4_reads (m : List Nat) (a b0 b1 b2 b3 : Nat) (ha : a + 4 ≤ m.length) :
    ((((m.set a b0).set (a + 1) b1).set (a + 2) b2).set (a + 3) b3)[a]? = some b0 ∧
    ((((m.set a b0).set (a + 1) b1).set (a + 2) b2).set (a + 3) b3)[a + 1]? = some b1 ∧
    ((((m.set a b0).set (a + 1) b1).set (a + 2) b2).set (a + 3) b3)[a + 2]? = some b2 ∧
    ((((m.set a b0).set (a + 1) b1).set (a + 2) b2).set (a + 3) b3)[a + 3]? = some b3 := by
  refine ⟨?_, ?_, ?_, ?_⟩
  · rw [List.getElem?_set_ne (by omega : a + 3 ≠ a),
      List.getElem?_set_ne (by omega : a + 2 ≠ a),
      List.getElem?_set_ne (by omega : a + 1 ≠ a),
      List.getElem?_set_self (by omega : a < m.length)]
  · rw [List.getElem?_set_ne (by omega : a + 3 ≠ a + 1),
      List.getElem?_set_ne (by omega : a + 2 ≠ a + 1),
      List.getElem?_set_self
        (by simp only [List.length_set]; omega : a + 1 < (m.set a b0).length)]
  · rw [List.getElem?_set_ne (by omega : a + 3 ≠ a + 2),
      List.getElem?_set_self (by simp only [List.length_set]; omega :
        a + 2 < ((m.set a b0).set (a + 1) b1).length)]
  · rw [List.getElem?_set_self (by simp only [List.length_set]; omega :
      a + 3 < (((m.set a b0).set (a + 1) b1).set (a + 2) b2).length)]

/-- C9: matching-width write/read round-trips return the written value for
every in-bounds address, and a word write of 0x00FF0FF0 lays down the
little-endian bytes F0, 0F, FF, 00 at a, a+1, a+2, a+3. -/
theorem c9_little_endian_roundtrip (m : List Nat) (a v : Nat) :
    (v < 2 ^ 8 → a + 1 ≤ m.length → byteRoundTrip m a v = some v) ∧
    (v < 2 ^ 16 → a + 2 ≤ m.length → halfRoundTrip m a v = some v) ∧
    (v < 2 ^ 32 → a + 4 ≤ m.length → wordRoundTrip m a v = some v) ∧
    (a + 4 ≤ m.length →
      wordWriteThenByte m a 0x00FF0FF0 a = some 0xF0 ∧
      wordWriteThenByte m a 0x00FF0FF0 (a + 1) = some 0x0F ∧
      wordWriteThenByte m a 0x00FF0FF0 (a + 2) = some 0xFF ∧
      wordWriteThenByte m a 0x00FF0FF0 (a + 3) = some 0x00) := by
  refine ⟨?_, ?_, ?_, ?_⟩
  · intro hv ha
    unfold byteRoundTrip writeByte readByte
    rw [if_pos (by omega : a < m.length), Option.some_bind,
      List.getElem?_set_self (by omega : a < m.length)]
  · intro hv ha
    obtain ⟨h0, h1⟩ := set2_reads m a (v % 2 ^ 8) (v / 2 ^ 8 % 2 ^ 8) ha
    unfold halfRoundTrip writeHalfword readHalfword
    rw [if_pos ha, Option.some_bind, h0, h1]
    dsimp only
    have : v % 2 ^ 8 + 2 ^ 8 * (v / 2 ^ 8 % 2 ^ 8) = v := by omega
    rw [this]
  · intro hv ha
    obtain ⟨h0, h1, h2, h3⟩ := set4_reads m a (v % 2 ^ 8) (v / 2 ^ 8 % 2 ^ 8)
      (v / 2 ^ 16 % 2 ^ 8) (v / 2 ^ 24 % 2 ^ 8) ha
    unfold wordRoundTrip writeWord readWord
    rw [if_pos ha, Option.some_bind, h0, h1, h2, h3]
    dsimp only
    have : v % 2 ^ 8 + 2 ^ 8 * (v / 2 ^ 8 % 2 ^ 8) + 2 ^ 16 * (v / 2 ^ 16 % 2 ^ 8) +
        2 ^ 24 * (v / 2 ^ 24 % 2 ^ 8) = v := by omega
    rw [this]
  · intro ha
    obtain ⟨h0, h1, h2, h3⟩ := set4_reads m a (0x00FF0FF0 % 2 ^ 8)
      (0x00FF0FF0 / 2 ^ 8 % 2 ^ 8) (0x00FF0FF0 / 2 ^ 16 % 2 ^ 8)
      (0x00FF0FF0 / 2 ^ 24 % 2 ^ 8) ha
    refine ⟨?_, ?_, ?_, ?_⟩ <;>
      unfold wordWriteThenByte writeWord readByte <;>
      rw [if_pos ha, Option.some_bind]
    · rw [h0]; decide
    · rw [h1]; decide
    · rw [h2]; decide
    · rw [h3]; decide

/-- C9 witness: the round-trips and the little-endian byte layout at the
concrete memory of four zero bytes, address 0, values 0x5A / 0xBEEF /
0xDEADBEEF. -/
theorem c9_little_endian_roundtrip_witness :
    byteRoundTrip (List.replicate 4 0) 0 0x5A = some 0x5A ∧
    halfRoundTrip (List.replicate 4 0) 0 0xBEEF = some 0xBEEF ∧
    wordRoundTrip (List.replicate 4 0) 0 0xDEADBEEF = some 0xDEADBEEF ∧
    wordWriteThenByte (List.replicate 4 0) 0 0x00FF0FF0 0 = some 0xF0 ∧
    wordWriteThenByte (List.replicate 4 0) 0 0x00FF0FF0 1 = some 0x0F ∧
    wordWriteThenByte (List.replicate 4 0) 0 0x00FF0FF0 2 = some 0xFF ∧
    wordWriteThenByte (List.replicate 4 0) 0 0x00FF0FF0 3 = some 0x00 :=
  ⟨(c9_little_endian_roundtrip (List.replicate 4 0) 0 0x5A).1 (by decide) (by decide),
   (c9_little_endian_roundtrip (List.replicate 4 0) 0 0xBEEF).2.1 (by decide) (by decide),
   (c9_little_endian_roundtrip (List.replicate 4 0) 0 0xDEADBEEF).2.2.1
     (by decide) (by decide),
   ((c9_little_endian_roundtrip (List.replicate 4 0) 0 0).2.2.2 (by decide)).1,
   ((c9_little_endian_roundtrip (List.replicate 4 0) 0 0).2.2.2 (by decide)).2.1,
   ((c9_little_endian_roundtrip (List.replicate 4 0) 0 0).2.2.2 (by decide)).2.2.1,
   ((c9_little_endian_roundtrip (List.replicate 4 0) 0 0).2.2.2 (by decide)).2.2.2⟩

end Yars
